import Mathlib

/-!
# Verification of the HR attrition dashboard (`src/app.py`)

A shallow embedding of the reproducible logic of the Streamlit dashboard:
the pairwise-pattern table, the driver list, the single-driver aggregator,
the top-combinations selector, the pairwise pivot builder, the executive
summary aggregations, and the startup data-loading path.

Conventions of the embedding:
* a pandas `DataFrame` of pairwise patterns is a `List PairwiseRecord`;
* floating-point `attrition_rate` values are modelled as rationals (`ℚ`);
* `sort_values(..., ascending=False)` is modelled by an insertion sort on
  the same key.  pandas's default quicksort leaves the relative order of
  tied keys unspecified, so any fixed comparison-sort is a faithful
  representative; every property proved below is independent of tie order;
* `groupby` sorts group keys ascending, which is modelled by sorting the
  deduplicated key list ascending before mapping the aggregation over it;
* a missing cell of a pivot (pandas `NaN`) is `Option.none`.
-/

namespace AttritionApp

/-- One row of `data/attrition_pairwise_patterns.csv` (spec §3 `PairwiseRecord`). -/
structure PairwiseRecord where
  feature_1 : String
  feature_1_value : String
  feature_2 : String
  feature_2_value : String
  attrition_rate : ℚ
  support : ℕ
deriving DecidableEq

/-- The pairwise-pattern table (`df_pairs`). -/
abbrev Table := List PairwiseRecord

/-- Descending order on a rational-valued key: `a` before `b` iff `key b ≤ key a`.
Models `sort_values(key, ascending=False)`. -/
def keyDesc {α : Type} (key : α → ℚ) (a b : α) : Prop :=
  key b ≤ key a

instance {α : Type} (key : α → ℚ) : DecidableRel (keyDesc key) :=
  fun a b => inferInstanceAs (Decidable (key b ≤ key a))

instance {α : Type} (key : α → ℚ) : IsTotal α (keyDesc key) :=
  ⟨fun a b => le_total (key b) (key a)⟩

instance {α : Type} (key : α → ℚ) : IsTrans α (keyDesc key) :=
  ⟨fun _ _ _ h1 h2 => le_trans h2 h1⟩

/-- Sort a list descending by a rational-valued key. -/
def sortDesc {α : Type} (key : α → ℚ) (l : List α) : List α :=
  l.insertionSort (keyDesc key)

/-- Sort a list of strings ascending (lexicographically), as Python `sorted`
and pandas `groupby`/`pivot_table` key ordering do. -/
def sortStr (l : List String) : List String :=
  l.insertionSort (· ≤ ·)

/-- `driver_features` (src/app.py:62-66): the sorted, deduplicated union of the
`feature_1` and `feature_2` columns.  The source computes
`sorted(unique(feature_1) + unique(feature_2))` followed by
`sorted(list(set(...)))`; the final `sorted` over the `set` depends only on
the set of names, so the intermediate orders (pandas `unique` keeps first
occurrences, `List.dedup` keeps last occurrences) cannot affect the result. -/
def driver_features (t : Table) : List String :=
  sortStr ((sortStr ((t.map (·.feature_1)).dedup ++ (t.map (·.feature_2)).dedup)).dedup)

/-- The row selection of the univariate block (src/app.py:98-100):
`df_pairs[df_pairs["feature_1"] == selected_feature]`.  The projection to the
columns `feature_1_value`, `attrition_rate`, `support` is left implicit: the
aggregation below reads exactly those three fields. -/
def uniRows (t : Table) (F : String) : Table :=
  t.filter (fun r => r.feature_1 = F)

/-- The aggregation of one `groupby("feature_1_value")` group
(src/app.py:102-107): the group key, the mean of `attrition_rate` over the
rows of the group, and the sum of their `support`. -/
def groupAgg (rows : Table) (k : String) : String × ℚ × ℕ :=
  (k,
   ((rows.filter (fun r => r.feature_1_value = k)).map (·.attrition_rate)).sum /
     (((rows.filter (fun r => r.feature_1_value = k)).length : ℚ)),
   ((rows.filter (fun r => r.feature_1_value = k)).map (·.support)).sum)

/-- The groupby/agg pipeline of src/app.py:102-110 applied to an already
filtered row list: group by `feature_1_value` (pandas sorts group keys
ascending), aggregate each group with `groupAgg`, sort descending by the
mean attrition rate, keep the first 5 groups. -/
def aggRows (rows : Table) : List (String × ℚ × ℕ) :=
  (sortDesc (fun e => e.2.1)
    ((sortStr (rows.map (·.feature_1_value)).dedup).map (groupAgg rows))).take 5

/-- `uni` (src/app.py:98-110): the single-driver aggregator. -/
def uni (t : Table) (F : String) : List (String × ℚ × ℕ) :=
  aggRows (uniRows t F)

/-- What the univariate block renders (src/app.py:112-129): a warning notice
when `uni` is empty, otherwise a bar chart of the attrition-rate column of
`uni` (one bar per `feature_1_value`, in the order of `uni`). -/
inductive DriverViewOutput : Type
  | noData (message : String)
  | chart (bars : List (String × ℚ))
deriving DecidableEq

/-- The `if uni.empty` guard of src/app.py:112-129.  The warning text of the
source wraps the feature name in single quotation marks; they are elided here. -/
def univariateView (t : Table) (F : String) : DriverViewOutput :=
  if (uni t F).isEmpty then
    .noData ("No sufficient data available to plot univariate impact for " ++ F ++ ".")
  else
    .chart ((uni t F).map (fun e => (e.1, e.2.1)))

/-- `top_combos` (src/app.py:136-139): rows where the selected feature appears
as `feature_1` or `feature_2`, sorted descending by `attrition_rate`, first 3. -/
def top_combos (t : Table) (F : String) : Table :=
  (sortDesc (·.attrition_rate)
    (t.filter (fun r => r.feature_1 = F ∨ r.feature_2 = F))).take 3

/-- The column headers of `display_df` (src/app.py:142-154): the six selected
columns, with `feature_1_value` — and only that column — renamed to
`"<F> Value"`.  The rename is unconditional: it does not depend on whether a
given row carries `F` in `feature_1` or in `feature_2`. -/
def displayHeaders (F : String) : List String :=
  ["feature_1", F ++ " Value", "feature_2", "feature_2_value",
   "attrition_rate", "support"]

/-- The reading of spec §4.4 under which the relabeled column of the displayed
table is "the value column corresponding to `F`": since the code renames the
`feature_1_value` column, that column holds values of `F` for a returned row
exactly when the row has `feature_1 = F`. -/
def relabelMatchesF (t : Table) (F : String) : Prop :=
  ∀ r ∈ top_combos t F, r.feature_1 = F

instance (t : Table) (F : String) : Decidable (relabelMatchesF t F) :=
  inferInstanceAs (Decidable (∀ r ∈ top_combos t F, r.feature_1 = F))

/-- `subset` (src/app.py:179-182): rows matching the exact ordered pair
`feature_1 == f1 AND feature_2 == f2`. -/
def pairSubset (t : Table) (F1 F2 : String) : Table :=
  t.filter (fun r => r.feature_1 = F1 ∧ r.feature_2 = F2)

/-- The row index of the pivot (src/app.py:185-189): the distinct
`feature_1_value`s of `subset`, sorted ascending as `pivot_table` sorts them. -/
def pivotRowKeys (t : Table) (F1 F2 : String) : List String :=
  sortStr ((pairSubset t F1 F2).map (·.feature_1_value)).dedup

/-- The column index of the pivot (src/app.py:185-189): the distinct
`feature_2_value`s of `subset`, sorted ascending. -/
def pivotColKeys (t : Table) (F1 F2 : String) : List String :=
  sortStr ((pairSubset t F1 F2).map (·.feature_2_value)).dedup

/-- One cell of `pivot` (src/app.py:185-189): `none` (pandas `NaN`, rendered
blank, never zero-filled) when no row of `subset` has this value pair;
otherwise the mean of `attrition_rate` over the matching rows (`pivot_table`
aggregates duplicates with its default `aggfunc="mean"`). -/
def pivotCell (t : Table) (F1 F2 a b : String) : Option ℚ :=
  let g := (pairSubset t F1 F2).filter
    (fun r => r.feature_1_value = a ∧ r.feature_2_value = b)
  if g.isEmpty then none
  else some ((g.map (·.attrition_rate)).sum / (g.length : ℚ))

/-- What the Heatmap Lab renders (src/app.py:184-219): `none` models the
`st.info("No data available for this combination.")` branch taken when
`subset` is empty; otherwise the pivot is rendered as a heatmap. -/
def heatmapView (t : Table) (F1 F2 : String) :
    Option (List String × List String × (String → String → Option ℚ)) :=
  if (pairSubset t F1 F2).isEmpty then none
  else some (pivotRowKeys t F1 F2, pivotColKeys t F1 F2, pivotCell t F1 F2)

/-- The aggregation of one `groupby("feature_1")` group of the Executive
Summary (src/app.py:227-229): the feature name and its mean `attrition_rate`. -/
def driverMean (t : Table) (k : String) : String × ℚ :=
  (k,
   ((t.filter (fun r => r.feature_1 = k)).map (·.attrition_rate)).sum /
     (((t.filter (fun r => r.feature_1 = k)).length : ℚ)))

/-- `top_drivers` (src/app.py:227-232): group the whole pairwise table by
`feature_1`, take the mean `attrition_rate` of each group, sort descending,
keep the first 5.  Entries are `(feature_1, mean attrition_rate)`. -/
def top_drivers (t : Table) : List (String × ℚ) :=
  (sortDesc Prod.snd
    ((sortStr (t.map (·.feature_1)).dedup).map (driverMean t))).take 5

/-- `top_profiles` (src/app.py:239-241): the whole pairwise table sorted
descending by `attrition_rate`, first 5 rows. -/
def top_profiles (t : Table) : Table :=
  (sortDesc (·.attrition_rate) t).take 5

/-- Python's `"{:.0%}".format(x)`: the value times 100, rounded to an integer,
followed by a percent sign.  (CPython rounds floats half-to-even; on the exact
rationals of this embedding we use `round`, which differs only at exact
half-percent values, where the float image is itself inexact.) -/
def formatPct (q : ℚ) : String :=
  toString (round (q * 100)) ++ "%"

/-- The high-risk profile sentence (src/app.py:243-247), interpolating both
feature names, both feature values, and the attrition rate as a percentage. -/
def renderProfile (r : PairwiseRecord) : String :=
  "- Employees with **" ++ r.feature_1 ++ " = " ++ r.feature_1_value ++
  "** and **" ++ r.feature_2 ++ " = " ++ r.feature_2_value ++
  "** show attrition rate of **" ++ formatPct r.attrition_rate ++ "**"

/-- The rendered high-risk profile list of the Executive Summary
(src/app.py:239-247). -/
def renderedProfiles (t : Table) : List String :=
  (top_profiles t).map renderProfile

/-!
## Startup and data loading (src/app.py:51-66)

`load_data` calls `pd.read_csv` on two fixed paths and performs no validation
of its own; there is no `DataLoadError` class anywhere in the source.  The
library behaviour is modelled abstractly: a file is an optional parse outcome
(missing file, malformed contents, or a header plus rows), and `read_csv`
surfaces the corresponding library error.  After loading, and before any tab
or view is created, the module body evaluates `df_pairs["feature_1"]` and
`df_pairs["feature_2"]` (src/app.py:62-64), which raises a `KeyError` when
the pairwise file lacks either column.  No other column is touched before the
views render.
-/

/-- An input CSV file as the loader sees it. -/
structure CsvFile where
  missing : Bool
  malformed : Bool
  header : List String
  rows : List (List String)
deriving DecidableEq

/-- A parsed dataframe: its column names and its raw rows. -/
structure RawTable where
  header : List String
  rows : List (List String)
deriving DecidableEq

/-- The errors `pd.read_csv` can raise for the fault classes of spec §7. -/
inductive LoadError : Type
  | fileNotFound
  | parserError
deriving DecidableEq

/-- Errors observable during the pre-view part of a script run. -/
inductive StartupError : Type
  | load (e : LoadError)
  | keyError (column : String)
deriving DecidableEq

/-- `pd.read_csv` on one file, modelled abstractly: a missing file raises
`FileNotFoundError`, unparseable contents raise a `ParserError`, and any
well-formed CSV parses — `read_csv` checks no column names. -/
def read_csv (f : CsvFile) : Except LoadError RawTable :=
  if f.missing then .error .fileNotFound
  else if f.malformed then .error .parserError
  else .ok ⟨f.header, f.rows⟩

/-- `load_data` (src/app.py:51-57): read the scored file, then the pairwise
file; no column validation of any kind. -/
def load_data (scoresFile pairsFile : CsvFile) :
    Except LoadError (RawTable × RawTable) := do
  let scores ← read_csv scoresFile
  let pairs ← read_csv pairsFile
  return (scores, pairs)

/-- A pandas column access `df[c]`, which raises `KeyError` when absent. -/
def requireCol (tbl : RawTable) (c : String) : Except StartupError Unit :=
  if c ∈ tbl.header then .ok () else .error (.keyError c)

/-- The pre-view part of a script run (src/app.py:51-66): load both files,
then build the driver list, which accesses exactly the columns `feature_1`
and `feature_2` of the pairwise table.  Everything after this point happens
while tabs and views are being rendered. -/
def startupPrelude (scoresFile pairsFile : CsvFile) :
    Except StartupError (RawTable × RawTable) := do
  match load_data scoresFile pairsFile with
  | .error e => .error (.load e)
  | .ok (scores, pairs) =>
      let _ ← requireCol pairs "feature_1"
      let _ ← requireCol pairs "feature_2"
      return (scores, pairs)

/-- The required columns of the pairwise table (spec §3). -/
def pairsRequiredCols : List String :=
  ["feature_1", "feature_1_value", "feature_2", "feature_2_value",
   "attrition_rate", "support"]

/-!
## Concrete tables and files used to instantiate the theorems
-/

/-- The three-row input of spec §8's pivot test:
`[(F1,"A",F2,"X",0.30,50), (F1,"A",F2,"Y",0.10,20), (F1,"B",F2,"X",0.50,30)]`. -/
def pivotExampleTable (F1 F2 : String) : Table :=
  [⟨F1, "A", F2, "X", 0.30, 50⟩, ⟨F1, "A", F2, "Y", 0.10, 20⟩,
   ⟨F1, "B", F2, "X", 0.50, 30⟩]

/-- The `OverTime` scenario of spec §8: two `OverTime` rows
(`Yes: 0.45/120`, `No: 0.15/300`) plus an unrelated pairwise row. -/
def uniExampleTable : Table :=
  [⟨"OverTime", "Yes", "JobRole", "Sales", 0.45, 120⟩,
   ⟨"OverTime", "No", "JobRole", "Sales", 0.15, 300⟩,
   ⟨"JobRole", "Sales", "MaritalStatus", "Single", 0.40, 80⟩]

/-- A one-row table whose only row carries `OverTime` in `feature_2`:
the row is returned by `top_combos` for `OverTime`, yet its `feature_1_value`
column — the one the display relabels — holds a `JobRole` value. -/
def relabelExampleTable : Table :=
  [⟨"JobRole", "Sales", "OverTime", "Yes", 1, 120⟩]

/-- A one-row table in which the feature name `B` occurs only in `feature_2`. -/
def onlyFeature2Table : Table :=
  [⟨"A", "a", "B", "b", 1, 10⟩]

/-- A one-row table encoding the pair in the order `("B", "A")`, so that the
selection for `F1 = "A", F2 = "B"` (the swapped order) matches nothing. -/
def swappedPairTable : Table :=
  [⟨"B", "b", "A", "a", 1, 10⟩]

/-- Extra rows in which the feature name `A` occurs only in `feature_2`. -/
def extraFeature2Rows : Table :=
  [⟨"C", "c", "A", "x", 1, 5⟩]

/-- A present, well-formed scored-records file. -/
def goodScoresFile : CsvFile :=
  ⟨false, false, ["EmployeeNumber", "Attrition", "attrition_score"], []⟩

/-- A present, well-formed pairwise file whose header lacks the required
column `attrition_rate`. -/
def pairsFileMissingRate : CsvFile :=
  ⟨false, false,
   ["feature_1", "feature_1_value", "feature_2", "feature_2_value", "support"], []⟩

/-- A missing input file. -/
def missingFile : CsvFile :=
  ⟨true, false, [], []⟩

/-!
## Helper lemmas
-/

theorem sortStr_sorted (l : List String) : List.Sorted (· ≤ ·) (sortStr l) :=
  List.sorted_insertionSort _ l

theorem sortStr_perm (l : List String) : List.Perm (sortStr l) l :=
  List.perm_insertionSort _ l

theorem mem_sortStr {a : String} {l : List String} : a ∈ sortStr l ↔ a ∈ l :=
  (sortStr_perm l).mem_iff

theorem sortDesc_sorted {α : Type} (key : α → ℚ) (l : List α) :
    List.Sorted (keyDesc key) (sortDesc key l) :=
  List.sorted_insertionSort _ l

theorem sortDesc_perm {α : Type} (key : α → ℚ) (l : List α) :
    List.Perm (sortDesc key l) l :=
  List.perm_insertionSort _ l

theorem sorted_take {α : Type} {r : α → α → Prop} {l : List α}
    (h : List.Sorted r l) (n : ℕ) : List.Sorted r (l.take n) :=
  h.sublist (List.take_sublist n l)

theorem nodup_take {α : Type} {l : List α} (h : l.Nodup) (n : ℕ) :
    (l.take n).Nodup :=
  h.sublist (List.take_sublist n l)

theorem aggRows_length (rows : Table) : (aggRows rows).length ≤ 5 := by
  rw [aggRows]
  exact List.length_take_le 5 _

theorem aggRows_sorted (rows : Table) :
    List.Sorted (keyDesc (fun e => e.2.1)) (aggRows rows) :=
  sorted_take (sortDesc_sorted _ _) 5

theorem groupAgg_fst (rows : Table) (k : String) : (groupAgg rows k).1 = k := rfl

theorem aggRows_keys_nodup (rows : Table) : ((aggRows rows).map Prod.fst).Nodup := by
  rw [aggRows, List.map_take]
  refine nodup_take ?_ 5
  have hperm :=
    (sortDesc_perm (fun e : String × ℚ × ℕ => e.2.1)
      ((sortStr (rows.map (·.feature_1_value)).dedup).map (groupAgg rows))).map Prod.fst
  refine hperm.symm.nodup ?_
  rw [List.map_map]
  have hid : (Prod.fst ∘ groupAgg rows) = id := rfl
  rw [hid, List.map_id]
  exact (sortStr_perm _).symm.nodup (List.nodup_dedup _)

theorem aggRows_mem (rows : Table) (e : String × ℚ × ℕ) (he : e ∈ aggRows rows) :
    e = groupAgg rows e.1 ∧ e.1 ∈ rows.map (·.feature_1_value) := by
  rw [aggRows] at he
  have h1 := List.mem_of_mem_take he
  have h2 := (sortDesc_perm (fun e : String × ℚ × ℕ => e.2.1) _).mem_iff.mp h1
  obtain ⟨k, hk, hke⟩ := List.mem_map.mp h2
  have hfst : e.1 = k := by rw [← hke]; rfl
  subst hfst
  constructor
  · exact hke.symm
  · exact List.mem_dedup.mp ((sortStr_perm _).mem_iff.mp hk)

theorem aggRows_mem_exists (rows : Table) (e : String × ℚ × ℕ) (he : e ∈ aggRows rows) :
    ∃ k, e = groupAgg rows k ∧ k ∈ rows.map (·.feature_1_value) := by
  obtain ⟨heq, hmem⟩ := aggRows_mem rows e he
  exact ⟨e.1, heq, hmem⟩

theorem filter_value_ne_nil (rows : Table) (k : String)
    (h : k ∈ rows.map (·.feature_1_value)) :
    rows.filter (fun r => r.feature_1_value = k) ≠ [] := by
  obtain ⟨r, hr, hrk⟩ := List.mem_map.mp h
  intro hnil
  have hmem : r ∈ rows.filter (fun r => r.feature_1_value = k) :=
    List.mem_filter.mpr ⟨hr, by simp [hrk]⟩
  rw [hnil] at hmem
  exact absurd hmem (List.not_mem_nil r)

theorem filter_feature1_ne_nil (t : Table) (k : String)
    (h : k ∈ t.map (·.feature_1)) :
    t.filter (fun r => r.feature_1 = k) ≠ [] := by
  obtain ⟨r, hr, hrk⟩ := List.mem_map.mp h
  intro hnil
  have hmem : r ∈ t.filter (fun r => r.feature_1 = k) :=
    List.mem_filter.mpr ⟨hr, by simp [hrk]⟩
  rw [hnil] at hmem
  exact absurd hmem (List.not_mem_nil r)

theorem mem_driver_features (t : Table) (s : String) :
    s ∈ driver_features t ↔
      (s ∈ t.map (·.feature_1) ∨ s ∈ t.map (·.feature_2)) := by
  simp [driver_features, mem_sortStr, List.mem_dedup, List.mem_append]

theorem driverMean_fst (t : Table) (k : String) : (driverMean t k).1 = k := rfl

theorem top_drivers_mem_exists (t : Table) (e : String × ℚ) (he : e ∈ top_drivers t) :
    ∃ k, e = driverMean t k ∧ k ∈ t.map (·.feature_1) := by
  rw [top_drivers] at he
  have h1 := List.mem_of_mem_take he
  have h2 := (sortDesc_perm (Prod.snd (β := ℚ)) _).mem_iff.mp h1
  obtain ⟨k, hk, hke⟩ := List.mem_map.mp h2
  exact ⟨k, hke.symm, List.mem_dedup.mp ((sortStr_perm _).mem_iff.mp hk)⟩

theorem uniRows_append_eq (t rs : Table) (F : String)
    (h : ∀ r ∈ rs, r.feature_1 ≠ F) : uniRows (t ++ rs) F = uniRows t F := by
  rw [uniRows, uniRows, List.filter_append]
  have hnil : rs.filter (fun r => decide (r.feature_1 = F)) = [] :=
    List.filter_eq_nil_iff.mpr (fun r hr => by simpa using h r hr)
  rw [hnil, List.append_nil]

theorem uniRows_eq_nil (t : Table) (F : String)
    (h : ∀ r ∈ t, r.feature_1 ≠ F) : uniRows t F = [] :=
  List.filter_eq_nil_iff.mpr (fun r hr => by simpa using h r hr)

theorem aggRows_nil : aggRows [] = [] := rfl

theorem pairSubset_eq_nil (t : Table) (F1 F2 : String)
    (h : ∀ r ∈ t, ¬(r.feature_1 = F1 ∧ r.feature_2 = F2)) :
    pairSubset t F1 F2 = [] :=
  List.filter_eq_nil_iff.mpr (fun r hr => by simpa using h r hr)

theorem top_combos_mem (t : Table) (F : String) (r : PairwiseRecord)
    (hr : r ∈ top_combos t F) : (r.feature_1 = F ∨ r.feature_2 = F) ∧ r ∈ t := by
  rw [top_combos] at hr
  have h1 := List.mem_of_mem_take hr
  have h2 := (sortDesc_perm (fun r : PairwiseRecord => r.attrition_rate) _).mem_iff.mp h1
  have h3 := List.mem_filter.mp h2
  refine ⟨?_, h3.1⟩
  simpa using h3.2

theorem pivot_none_iff (t : Table) (F1 F2 a b : String) :
    pivotCell t F1 F2 a b = none ↔
      ∀ r ∈ t, ¬(r.feature_1 = F1 ∧ r.feature_2 = F2 ∧
        r.feature_1_value = a ∧ r.feature_2_value = b) := by
  simp [pivotCell, pairSubset, List.filter_filter, List.isEmpty_iff,
    List.filter_eq_nil_iff, and_assoc]
  constructor
  · intro h r hr h1 h2 h3 h4
    exact h r hr h3 h4 h1 h2
  · intro h r hr h1 h2 h3 h4
    exact h r hr h3 h4 h1 h2

theorem renderProfile_infix_f1 (r : PairwiseRecord) :
    List.IsInfix r.feature_1.data (renderProfile r).data :=
  ⟨"- Employees with **".data,
   (" = " ++ r.feature_1_value ++ "** and **" ++ r.feature_2 ++ " = " ++
     r.feature_2_value ++ "** show attrition rate of **" ++
     formatPct r.attrition_rate ++ "**").data,
   by simp [renderProfile, String.data_append, List.append_assoc]⟩

theorem renderProfile_infix_f1v (r : PairwiseRecord) :
    List.IsInfix r.feature_1_value.data (renderProfile r).data :=
  ⟨("- Employees with **" ++ r.feature_1 ++ " = ").data,
   ("** and **" ++ r.feature_2 ++ " = " ++ r.feature_2_value ++
     "** show attrition rate of **" ++ formatPct r.attrition_rate ++ "**").data,
   by simp [renderProfile, String.data_append, List.append_assoc]⟩

theorem renderProfile_infix_f2 (r : PairwiseRecord) :
    List.IsInfix r.feature_2.data (renderProfile r).data :=
  ⟨("- Employees with **" ++ r.feature_1 ++ " = " ++ r.feature_1_value ++
     "** and **").data,
   (" = " ++ r.feature_2_value ++ "** show attrition rate of **" ++
     formatPct r.attrition_rate ++ "**").data,
   by simp [renderProfile, String.data_append, List.append_assoc]⟩

theorem renderProfile_infix_f2v (r : PairwiseRecord) :
    List.IsInfix r.feature_2_value.data (renderProfile r).data :=
  ⟨("- Employees with **" ++ r.feature_1 ++ " = " ++ r.feature_1_value ++
     "** and **" ++ r.feature_2 ++ " = ").data,
   ("** show attrition rate of **" ++ formatPct r.attrition_rate ++ "**").data,
   by simp [renderProfile, String.data_append, List.append_assoc]⟩

theorem renderProfile_infix_rate (r : PairwiseRecord) :
    List.IsInfix (formatPct r.attrition_rate).data (renderProfile r).data :=
  ⟨("- Employees with **" ++ r.feature_1 ++ " = " ++ r.feature_1_value ++
     "** and **" ++ r.feature_2 ++ " = " ++ r.feature_2_value ++
     "** show attrition rate of **").data,
   "**".data,
   by simp [renderProfile, String.data_append, List.append_assoc]⟩

/-!
## Claim theorems
-/

/-- **C1.** The single-driver aggregator `uni` returns at most 5 rows, sorted
descending by mean attrition rate, with mutually distinct `feature_1_value`
keys; and every returned entry is the aggregation of a nonempty group of the
rows selected by `feature_1 == F`: its rate is the group's mean
`attrition_rate` and its support the group's summed `support`. -/
theorem uni_single_driver_aggregator (t : Table) (F : String) :
    (uni t F).length ≤ 5 ∧
    List.Sorted (keyDesc (fun e => e.2.1)) (uni t F) ∧
    ((uni t F).map Prod.fst).Nodup ∧
    ∀ e ∈ uni t F,
      (uniRows t F).filter (fun r => r.feature_1_value = e.1) ≠ [] ∧
      e.2.1 = (((uniRows t F).filter (fun r => r.feature_1_value = e.1)).map
          (·.attrition_rate)).sum /
        ((((uniRows t F).filter (fun r => r.feature_1_value = e.1)).length : ℚ)) ∧
      e.2.2 = (((uniRows t F).filter (fun r => r.feature_1_value = e.1)).map
          (·.support)).sum := by
  refine ⟨aggRows_length _, aggRows_sorted _, aggRows_keys_nodup _, ?_⟩
  intro e he
  obtain ⟨k, rfl, hmem⟩ := aggRows_mem_exists _ e he
  exact ⟨filter_value_ne_nil _ _ hmem, rfl, rfl⟩

/-- Witness for C1 on the `OverTime` table: the entry `("Yes", 0.45, 120)` is
in the aggregator's output, and the theorem yields its group facts. -/
theorem uni_single_driver_aggregator_witness :
    ("Yes", (0.45 : ℚ), (120 : ℕ)) ∈ uni uniExampleTable "OverTime" ∧
    (uniRows uniExampleTable "OverTime").filter
      (fun r => r.feature_1_value = "Yes") ≠ [] :=
  have hmem : ("Yes", (0.45 : ℚ), (120 : ℕ)) ∈ uni uniExampleTable "OverTime" := by
    norm_num +decide [uni, uniRows, aggRows, groupAgg, sortStr, sortDesc, keyDesc,
      List.insertionSort, List.orderedInsert, uniExampleTable]
  ⟨hmem,
   ((uni_single_driver_aggregator uniExampleTable "OverTime").2.2.2
     ("Yes", (0.45 : ℚ), (120 : ℕ)) hmem).1⟩

/-- **C2.** A pivot cell is undefined (`none`, never zero-filled) exactly when
no row of the table matches `(F1, a, F2, b)` — so the pivot is built from
precisely the rows with `feature_1 == F1` and `feature_2 == F2`; and on the
three-row example table the pivot is the 2×2 matrix with `A×X = 0.30`,
`A×Y = 0.10`, `B×X = 0.50` and `B×Y` undefined. -/
theorem pivot_builder_spec (t : Table) (F1 F2 a b : String) :
    (pivotCell t F1 F2 a b = none ↔
      ∀ r ∈ t, ¬(r.feature_1 = F1 ∧ r.feature_2 = F2 ∧
        r.feature_1_value = a ∧ r.feature_2_value = b)) ∧
    pivotRowKeys (pivotExampleTable "F1" "F2") "F1" "F2" = ["A", "B"] ∧
    pivotColKeys (pivotExampleTable "F1" "F2") "F1" "F2" = ["X", "Y"] ∧
    pivotCell (pivotExampleTable "F1" "F2") "F1" "F2" "A" "X" = some 0.30 ∧
    pivotCell (pivotExampleTable "F1" "F2") "F1" "F2" "A" "Y" = some 0.10 ∧
    pivotCell (pivotExampleTable "F1" "F2") "F1" "F2" "B" "X" = some 0.50 ∧
    pivotCell (pivotExampleTable "F1" "F2") "F1" "F2" "B" "Y" = none := by
  refine ⟨pivot_none_iff t F1 F2 a b, ?_⟩
  norm_num +decide [pivotCell, pivotRowKeys, pivotColKeys, pairSubset,
    pivotExampleTable, sortStr, List.insertionSort, List.orderedInsert]

/-- Witness for C2: the empty-cell criterion applied to the example table at
the missing combination `("B", "Y")`. -/
theorem pivot_builder_spec_witness :
    pivotCell (pivotExampleTable "F1" "F2") "F1" "F2" "B" "Y" = none :=
  (pivot_builder_spec (pivotExampleTable "F1" "F2") "F1" "F2" "B" "Y").1.mpr
    (by decide)

/-- **C3, counterexample.** On a table whose only row carries `OverTime` in
`feature_2`, `top_combos` returns that row, but the row's `feature_1` is
`JobRole`, not `OverTime`: the relabeled column (`feature_1_value`, renamed
to `"OverTime Value"`) is the value column of `JobRole`, so the relabeled
column is not the value column corresponding to the selected feature. -/
theorem relabel_column_counterexample :
    top_combos relabelExampleTable "OverTime" =
      [⟨"JobRole", "Sales", "OverTime", "Yes", 1, 120⟩] ∧
    displayHeaders "OverTime" =
      ["feature_1", "OverTime Value", "feature_2", "feature_2_value",
       "attrition_rate", "support"] ∧
    ¬ relabelMatchesF relabelExampleTable "OverTime" :=
  ⟨by decide, rfl, by decide⟩

/-- **C3, amended.** `top_combos` returns at most 3 rows, sorted descending by
`attrition_rate`, each a verbatim row of the table containing `F` as
`feature_1` or `feature_2`; the display relabels the `feature_1_value` column
to `"<F> Value"` unconditionally — that column corresponds to `F` only for
rows whose `feature_1` is `F`. -/
theorem top_combos_selector_amended (t : Table) (F : String) :
    (top_combos t F).length ≤ 3 ∧
    List.Sorted (keyDesc (·.attrition_rate)) (top_combos t F) ∧
    (∀ r ∈ top_combos t F, (r.feature_1 = F ∨ r.feature_2 = F) ∧ r ∈ t) ∧
    displayHeaders F =
      ["feature_1", F ++ " Value", "feature_2", "feature_2_value",
       "attrition_rate", "support"] := by
  refine ⟨?_, sorted_take (sortDesc_sorted _ _) 3,
    fun r hr => top_combos_mem t F r hr, rfl⟩
  rw [top_combos]
  exact List.length_take_le 3 _

/-- Witness for C3 (amended), applied to the returned row of the one-row
table: it contains `OverTime` (as `feature_2`) and is a row of the table. -/
theorem top_combos_selector_amended_witness :
    (PairwiseRecord.feature_1 ⟨"JobRole", "Sales", "OverTime", "Yes", 1, 120⟩ = "OverTime" ∨
      PairwiseRecord.feature_2 ⟨"JobRole", "Sales", "OverTime", "Yes", 1, 120⟩ = "OverTime") ∧
    (⟨"JobRole", "Sales", "OverTime", "Yes", 1, 120⟩ : PairwiseRecord) ∈
      relabelExampleTable :=
  (top_combos_selector_amended relabelExampleTable "OverTime").2.2.1
    ⟨"JobRole", "Sales", "OverTime", "Yes", 1, 120⟩ (by decide)

/-- **C4, counterexample.** The loader performs no column validation: with a
well-formed pairwise file whose header lacks the required column
`attrition_rate` (and a well-formed scores file), the whole pre-view startup
path succeeds — no `DataLoadError`, no failure of any kind at startup.  The
missing column would only surface later, inside the first view's rendering. -/
theorem loader_column_validation_counterexample :
    "attrition_rate" ∈ pairsRequiredCols ∧
    "attrition_rate" ∉ pairsFileMissingRate.header ∧
    startupPrelude goodScoresFile pairsFileMissingRate =
      .ok (⟨goodScoresFile.header, goodScoresFile.rows⟩,
           ⟨pairsFileMissingRate.header, pairsFileMissingRate.rows⟩) :=
  ⟨by decide, by decide, rfl⟩

/-- **C4, amended.** A missing or malformed file fails fatally at startup with
the underlying library error (there is no dedicated `DataLoadError`); a
pairwise file lacking `feature_1` or `feature_2` fails at startup only
because the driver-list construction accesses those two columns
(`KeyError`); any other missing column passes the whole pre-view startup
path unvalidated. -/
theorem startup_loading_amended (sf pf : CsvFile) :
    (sf.missing = true → startupPrelude sf pf = .error (.load .fileNotFound)) ∧
    (sf.missing = false → sf.malformed = true →
      startupPrelude sf pf = .error (.load .parserError)) ∧
    (sf.missing = false → sf.malformed = false → pf.missing = true →
      startupPrelude sf pf = .error (.load .fileNotFound)) ∧
    (sf.missing = false → sf.malformed = false → pf.missing = false →
      pf.malformed = true → startupPrelude sf pf = .error (.load .parserError)) ∧
    (sf.missing = false → sf.malformed = false → pf.missing = false →
      pf.malformed = false → "feature_1" ∉ pf.header →
      startupPrelude sf pf = .error (.keyError "feature_1")) ∧
    (sf.missing = false → sf.malformed = false → pf.missing = false →
      pf.malformed = false → "feature_1" ∈ pf.header → "feature_2" ∉ pf.header →
      startupPrelude sf pf = .error (.keyError "feature_2")) ∧
    (sf.missing = false → sf.malformed = false → pf.missing = false →
      pf.malformed = false → "feature_1" ∈ pf.header → "feature_2" ∈ pf.header →
      startupPrelude sf pf = .ok (⟨sf.header, sf.rows⟩, ⟨pf.header, pf.rows⟩)) := by
  refine ⟨?_, ?_, ?_, ?_, ?_, ?_, ?_⟩ <;>
    intros <;>
    simp_all [startupPrelude, load_data, read_csv, requireCol, bind, Except.bind,
      pure, Except.pure]

/-- Witness for C4 (amended): a missing scores file is fatal at startup. -/
theorem startup_loading_amended_witness :
    startupPrelude missingFile goodScoresFile = .error (.load .fileNotFound) :=
  (startup_loading_amended missingFile goodScoresFile).1 rfl

/-- **C5.** The Executive Summary: the top-drivers list has at most 5 entries,
is sorted descending by mean attrition rate, and each entry is the mean
`attrition_rate` of the nonempty `feature_1` group it names; the high-risk
profile list has at most 5 rows of the table, sorted descending by
`attrition_rate`, and each is rendered by interpolating both feature names,
both values, and the rate as a percentage into the profile sentence. -/
theorem summary_aggregator_spec (t : Table) :
    (top_drivers t).length ≤ 5 ∧
    List.Sorted (keyDesc Prod.snd) (top_drivers t) ∧
    (∀ e ∈ top_drivers t,
      t.filter (fun r => r.feature_1 = e.1) ≠ [] ∧
      e.2 = ((t.filter (fun r => r.feature_1 = e.1)).map (·.attrition_rate)).sum /
        (((t.filter (fun r => r.feature_1 = e.1)).length : ℚ))) ∧
    (top_profiles t).length ≤ 5 ∧
    List.Sorted (keyDesc (·.attrition_rate)) (top_profiles t) ∧
    (∀ r ∈ top_profiles t,
      r ∈ t ∧
      List.IsInfix r.feature_1.data (renderProfile r).data ∧
      List.IsInfix r.feature_1_value.data (renderProfile r).data ∧
      List.IsInfix r.feature_2.data (renderProfile r).data ∧
      List.IsInfix r.feature_2_value.data (renderProfile r).data ∧
      List.IsInfix (formatPct r.attrition_rate).data (renderProfile r).data) ∧
    renderedProfiles t = (top_profiles t).map renderProfile := by
  refine ⟨?_, sorted_take (sortDesc_sorted _ _) 5, ?_, ?_,
    sorted_take (sortDesc_sorted _ _) 5, ?_, rfl⟩
  · rw [top_drivers]
    exact List.length_take_le 5 _
  · intro e he
    obtain ⟨k, rfl, hk⟩ := top_drivers_mem_exists t e he
    exact ⟨filter_feature1_ne_nil t k hk, rfl⟩
  · rw [top_profiles]
    exact List.length_take_le 5 _
  · intro r hr
    rw [top_profiles] at hr
    have hrt : r ∈ t :=
      (sortDesc_perm (fun r : PairwiseRecord => r.attrition_rate) t).mem_iff.mp
        (List.mem_of_mem_take hr)
    exact ⟨hrt, renderProfile_infix_f1 r, renderProfile_infix_f1v r,
      renderProfile_infix_f2 r, renderProfile_infix_f2v r,
      renderProfile_infix_rate r⟩

/-- Witness for C5 on the `OverTime` table: its riskiest row is in the
profile list, belongs to the table, and its sentence interpolates its
fields. -/
theorem summary_aggregator_spec_witness :
    (⟨"OverTime", "Yes", "JobRole", "Sales", 0.45, 120⟩ : PairwiseRecord) ∈
      top_profiles uniExampleTable ∧
    (⟨"OverTime", "Yes", "JobRole", "Sales", 0.45, 120⟩ : PairwiseRecord) ∈
      uniExampleTable ∧
    List.IsInfix (String.data "OverTime")
      (renderProfile ⟨"OverTime", "Yes", "JobRole", "Sales", 0.45, 120⟩).data :=
  have hmem : (⟨"OverTime", "Yes", "JobRole", "Sales", 0.45, 120⟩ : PairwiseRecord) ∈
      top_profiles uniExampleTable := by
    norm_num +decide [top_profiles, sortDesc, keyDesc, List.insertionSort,
      List.orderedInsert, uniExampleTable]
  have h := (summary_aggregator_spec uniExampleTable).2.2.2.2.2.1 _ hmem
  ⟨hmem, h.1, h.2.1⟩

/-- **C6.** The driver list is deduplicated (each name occurs at most once),
sorted ascending lexicographically, and contains exactly the names occurring
in the `feature_1` or `feature_2` column; being a pure function of the table,
the same input always yields the same ordered output. -/
theorem driver_list_builder_spec (t : Table) :
    (driver_features t).Nodup ∧
    List.Sorted (· ≤ ·) (driver_features t) ∧
    ∀ s : String, s ∈ driver_features t ↔
      (s ∈ t.map (·.feature_1) ∨ s ∈ t.map (·.feature_2)) :=
  ⟨(sortStr_perm _).symm.nodup (List.nodup_dedup _), sortStr_sorted _,
   fun s => mem_driver_features t s⟩

/-- Witness for C6: `B`, occurring only in `feature_2`, is in the driver list
of the one-row table. -/
theorem driver_list_builder_spec_witness :
    "B" ∈ driver_features onlyFeature2Table :=
  ((driver_list_builder_spec onlyFeature2Table).2.2 "B").mpr (Or.inr (by decide))

/-- **C7.** When no row has `feature_1 == F`, the single-driver aggregator
returns the empty list (no error), and the view shows the "no sufficient
data" warning instead of a chart. -/
theorem uni_empty_no_data (t : Table) (F : String)
    (h : ∀ r ∈ t, r.feature_1 ≠ F) :
    uni t F = [] ∧
    univariateView t F =
      .noData ("No sufficient data available to plot univariate impact for " ++
        F ++ ".") := by
  have h0 : uniRows t F = [] := uniRows_eq_nil t F h
  have h1 : uni t F = [] := by rw [uni, h0, aggRows_nil]
  exact ⟨h1, by simp [univariateView, h1]⟩

/-- Witness for C7: `B` occurs only as `feature_2` in the one-row table. -/
theorem uni_empty_no_data_witness :
    uni onlyFeature2Table "B" = [] ∧
    univariateView onlyFeature2Table "B" =
      .noData ("No sufficient data available to plot univariate impact for " ++
        "B" ++ ".") :=
  uni_empty_no_data onlyFeature2Table "B" (by decide)

/-- **C8.** When no row matches the exact ordered pair `(F1, F2)`, the
filtered selection is empty and the Heatmap Lab yields the no-data signal —
no pivot of zero rows is rendered. -/
theorem heatmap_empty_no_data (t : Table) (F1 F2 : String)
    (h : ∀ r ∈ t, ¬(r.feature_1 = F1 ∧ r.feature_2 = F2)) :
    pairSubset t F1 F2 = [] ∧ heatmapView t F1 F2 = none := by
  have h0 := pairSubset_eq_nil t F1 F2 h
  exact ⟨h0, by simp [heatmapView, h0]⟩

/-- Witness for C8: picking `F1 = "A", F2 = "B"` against a table that encodes
the pair in the opposite order matches nothing. -/
theorem heatmap_empty_no_data_witness :
    pairSubset swappedPairTable "A" "B" = [] ∧
    heatmapView swappedPairTable "A" "B" = none :=
  heatmap_empty_no_data swappedPairTable "A" "B" (by decide)

/-- **C9.** The single-driver aggregator depends only on the rows with
`feature_1 == F`: tables agreeing on that selection give identical output,
and appending (or, read right to left, removing) rows in which `F` appears
only as `feature_2` leaves the output unchanged. -/
theorem uni_feature2_invariance (t t2 rs : Table) (F : String)
    (h1 : uniRows t F = uniRows t2 F)
    (h2 : ∀ r ∈ rs, r.feature_2 = F ∧ r.feature_1 ≠ F) :
    uni t F = uni t2 F ∧ uni (t ++ rs) F = uni t F := by
  constructor
  · rw [uni, uni, h1]
  · rw [uni, uni, uniRows_append_eq t rs F (fun r hr => (h2 r hr).2)]

/-- Witness for C9: appending a row that carries `A` only in `feature_2`
leaves the aggregation for `A` unchanged. -/
theorem uni_feature2_invariance_witness :
    uni onlyFeature2Table "A" = uni (onlyFeature2Table ++ extraFeature2Rows) "A" ∧
    uni (onlyFeature2Table ++ extraFeature2Rows) "A" = uni onlyFeature2Table "A" :=
  uni_feature2_invariance onlyFeature2Table (onlyFeature2Table ++ extraFeature2Rows)
    extraFeature2Rows "A" (by decide) (by decide)

/-- **C10.** A feature name occurring only in `feature_2` is offered in the
driver dropdown but can never appear in the Executive Summary's top-drivers
list, since that list groups solely by `feature_1`. -/
theorem feature2_only_never_top_driver (t : Table) (F : String)
    (h1 : ∃ r ∈ t, r.feature_2 = F) (h2 : ∀ r ∈ t, r.feature_1 ≠ F) :
    F ∈ driver_features t ∧ F ∉ (top_drivers t).map Prod.fst := by
  constructor
  · refine (mem_driver_features t F).mpr (Or.inr ?_)
    obtain ⟨r, hr, hrF⟩ := h1
    exact List.mem_map.mpr ⟨r, hr, hrF⟩
  · intro hmem
    obtain ⟨e, he, hfst⟩ := List.mem_map.mp hmem
    obtain ⟨k, hek, hk⟩ := top_drivers_mem_exists t e he
    obtain ⟨r, hr, hrk⟩ := List.mem_map.mp hk
    have hkF : k = F := by
      rw [hek] at hfst
      simpa [driverMean] using hfst
    exact h2 r hr (by rw [hrk, hkF])

/-- Witness for C10: in the one-row table, `B` occurs only as `feature_2`; it
is in the driver list but not among the top-driver keys. -/
theorem feature2_only_never_top_driver_witness :
    "B" ∈ driver_features onlyFeature2Table ∧
    "B" ∉ (top_drivers onlyFeature2Table).map Prod.fst :=
  feature2_only_never_top_driver onlyFeature2Table "B" (by decide) (by decide)

end AttritionApp
